import Mathlib

/-!
# k8s-api-client: a shallow embedding of `main.go`

The program polls the cluster API for nodes, namespaces and pods and prints a
snapshot in which the entries that describe the caller itself are highlighted.

The embedding keeps the Go names.  Everything the program does to the outside
world (requests to the API server, writes to standard output, log records, the
sleep between cycles, the exit) is recorded, in order, in a `Trace`.

* Go strings are `String`; `==` is `=` and a format with `%s` verbs is `++`.
* `%d` of a length is `toString` of a natural number.
* The API server is given by its answers: a `Clientset` holds the outcome of
  each of the three list calls of one cycle.
* Every call of `fmt.Printf` is one `stdout` event; each of them ends with a
  newline, so the events are the printed lines.
-/

namespace K8sApiClient

/-! ## Constants -/

/-- ANSI reset sequence, `"\033[0m"` in the source. -/
def ColorReset : String := "\x1b[0m"

/-- ANSI yellow sequence, `"\033[33m"` in the source. -/
def ColorYellow : String := "\x1b[33m"

/-! ## Data model (the fields of the API objects that the program reads) -/

/-- One entry of `node.Status.Conditions`; `condType` is the Go field `Type`. -/
structure NodeCondition where
  condType : String
  Status : String
deriving DecidableEq, Repr

/-- The part of `node.Status.NodeInfo` that is read. -/
structure NodeSystemInfo where
  KubeletVersion : String
deriving DecidableEq, Repr

/-- The part of `node.Status` that is read. -/
structure NodeStatus where
  Conditions : List NodeCondition
  NodeInfo : NodeSystemInfo
deriving DecidableEq, Repr

/-- A cluster node. -/
structure Node where
  Name : String
  Status : NodeStatus
deriving DecidableEq, Repr

/-- The part of `ns.Status` that is read. -/
structure NamespaceStatus where
  Phase : String
deriving DecidableEq, Repr

/-- A cluster namespace. -/
structure Namespace where
  Name : String
  Status : NamespaceStatus
deriving DecidableEq, Repr

/-- The part of `pod.Status` that is read. -/
structure PodStatus where
  Phase : String
deriving DecidableEq, Repr

/-- A pod. -/
structure Pod where
  Name : String
  Namespace : String
  Status : PodStatus
deriving DecidableEq, Repr

/-! ## Errors -/

/-- Go `error` values: an error handed back by the client library, or an error
built by `fmt.Errorf` with the `%w` verb around another error. -/
inductive GoError where
  | api (msg : String)
  | wrapped (msg : String) (err : GoError)
deriving DecidableEq, Repr

/-- The method `Error()` of an error value. -/
def GoError.Error : GoError → String
  | .api msg => msg
  | .wrapped msg _ => msg

/-- The function `errors.Unwrap`. -/
def GoError.Unwrap : GoError → Option GoError
  | .api _ => none
  | .wrapped _ err => some err

/-- The call `fmt.Errorf(text + ": %w", err)`, where `pre` is the format string up to the verb. -/
def Errorf (pre : String) (err : GoError) : GoError :=
  .wrapped (pre ++ err.Error) err

/-! ## The API server and the client -/

/-- The answers of the API server to the three list requests of one polling
cycle.  `listPods` is asked with a namespace. -/
structure Clientset where
  listNodes : Except GoError (List Node)
  listNamespaces : Except GoError (List Namespace)
  listPods : String → Except GoError (List Pod)

/-- The struct `K8sClient`: the client set and the identity of the caller. -/
structure K8sClient where
  clientset : Clientset
  podName : String
  podNamespace : String
  nodeName : String

/-- A request sent to the API server. -/
inductive ApiCall where
  | nodes
  | namespaces
  | pods (ns : String)
deriving DecidableEq, Repr

/-- Observable actions of the program.  A `log` record holds the message without
the time stamp that package `log` puts in front of it; `exit` is `os.Exit`. -/
inductive Event where
  | request (c : ApiCall)
  | stdout (s : String)
  | log (s : String)
  | sleep (seconds : Nat)
  | exit (code : Nat)
deriving DecidableEq, Repr

/-- The actions performed so far, oldest first. -/
abbrev Trace := List Event

/-- A call of `fmt.Printf` whose formatted text is `s`. -/
def Printf (t : Trace) (s : String) : Trace := t ++ [Event.stdout s]

/-- The call `fmt.Println()`. -/
def Println (t : Trace) : Trace := t ++ [Event.stdout "\n"]

/-- A call of `log.Printf` or `log.Println` whose message is `s`. -/
def logPrintf (t : Trace) (s : String) : Trace := t ++ [Event.log s]

/-- The requests of a trace, in order. -/
def requestsOf (t : Trace) : List ApiCall :=
  t.filterMap fun e => match e with
    | .request c => some c
    | _ => none

/-- The writes to standard output of a trace, in order. -/
def stdoutOf (t : Trace) : List String :=
  t.filterMap fun e => match e with
    | .stdout s => some s
    | _ => none

/-- The log records of a trace, in order. -/
def logOf (t : Trace) : List String :=
  t.filterMap fun e => match e with
    | .log s => some s
    | _ => none

/-! ## Start-up -/

/-- The connection settings returned by `rest.InClusterConfig`. -/
structure RestConfig where
  Host : String
deriving DecidableEq, Repr

/-- The execution context of the process: the environment variables and the
outcome of the two library calls of `NewK8sClient`. -/
structure Platform where
  env : String → Option String
  InClusterConfig : Except GoError RestConfig
  NewForConfig : RestConfig → Except GoError Clientset

/-- The function `os.Getenv`: the value of the variable, or `""` when it is unset. -/
def Getenv (env : String → Option String) (key : String) : String :=
  (env key).getD ""

/-- The function `NewK8sClient`. -/
def NewK8sClient (p : Platform) : Except GoError K8sClient :=
  match p.InClusterConfig with
  | .error err => .error (Errorf "failed to get in-cluster config: " err)
  | .ok config =>
    match p.NewForConfig config with
    | .error err => .error (Errorf "failed to create clientset: " err)
    | .ok clientset =>
      let podName := Getenv p.env "POD_NAME"
      let podNamespace := Getenv p.env "POD_NAMESPACE"
      let nodeName := Getenv p.env "NODE_NAME"
      .ok ⟨clientset, podName, podNamespace, nodeName⟩

/-! ## `ListPods` -/

/-- The text printed for one pod (the body of the loop of `ListPods`). -/
def podLine (k : K8sClient) (pod : Pod) : String :=
  if pod.Name = k.podName ∧ pod.Namespace = k.podNamespace then
    ColorYellow ++ "- " ++ pod.Name ++ " (Phase: " ++ pod.Status.Phase ++ ") <- THIS IS ME!"
      ++ ColorReset ++ "\n"
  else
    "- " ++ pod.Name ++ " (Phase: " ++ pod.Status.Phase ++ ")\n"

/-- The method `ListPods`: the returned error (`none` is `nil`) and the new trace. -/
def ListPods (k : K8sClient) (ns : String) (t : Trace) : Option GoError × Trace :=
  let t := t ++ [Event.request (ApiCall.pods ns)]
  match k.clientset.listPods ns with
  | .error err => (some (Errorf "failed to list pods: " err), t)
  | .ok pods =>
    let t := Printf t ("Found " ++ toString pods.length ++ " pods in namespace '" ++ ns ++ "':\n")
    let t := pods.foldl (fun t pod => Printf t (podLine k pod)) t
    (none, t)

/-! ## `ListNamespaces` -/

/-- The text printed for one namespace (the body of the loop of `ListNamespaces`). -/
def namespaceLine (k : K8sClient) (ns : Namespace) : String :=
  if ns.Name = k.podNamespace then
    ColorYellow ++ "- " ++ ns.Name ++ " (Phase: " ++ ns.Status.Phase ++ ") <- MY NAMESPACE"
      ++ ColorReset ++ "\n"
  else
    "- " ++ ns.Name ++ " (Phase: " ++ ns.Status.Phase ++ ")\n"

/-- The method `ListNamespaces`. -/
def ListNamespaces (k : K8sClient) (t : Trace) : Option GoError × Trace :=
  let t := t ++ [Event.request ApiCall.namespaces]
  match k.clientset.listNamespaces with
  | .error err => (some (Errorf "failed to list namespaces: " err), t)
  | .ok namespaces =>
    let t := Printf t ("Found " ++ toString namespaces.length ++ " namespaces:\n")
    let t := namespaces.foldl (fun t ns => Printf t (namespaceLine k ns)) t
    (none, t)

/-! ## `GetClusterInfo` -/

/-- The inner loop of `GetClusterInfo` over the conditions of a node: `ready`
is the current value of the variable, and the loop is left at the first
condition of type `"Ready"` with status `"True"`. -/
def readyScan : List NodeCondition → String → String
  | [], ready => ready
  | condition :: rest, ready =>
    if condition.condType = "Ready" ∧ condition.Status = "True" then "Ready"
    else readyScan rest ready

/-- The value of `ready` after the inner loop, which starts from `"NotReady"`. -/
def nodeReady (node : Node) : String := readyScan node.Status.Conditions "NotReady"

/-- The text printed for one node once `ready` is known (the rest of the body of
the outer loop). -/
def nodeEntry (k : K8sClient) (node : Node) (ready : String) : String :=
  if node.Name = k.nodeName then
    ColorYellow ++ "- " ++ node.Name ++ " (" ++ node.Status.NodeInfo.KubeletVersion ++ ", "
      ++ ready ++ ") <- MY NODE" ++ ColorReset ++ "\n"
  else
    "- " ++ node.Name ++ " (" ++ node.Status.NodeInfo.KubeletVersion ++ ", " ++ ready ++ ")\n"

/-- The text printed for one node (the whole body of the outer loop). -/
def nodeLine (k : K8sClient) (node : Node) : String :=
  nodeEntry k node (nodeReady node)

/-- The method `GetClusterInfo`. -/
def GetClusterInfo (k : K8sClient) (t : Trace) : Option GoError × Trace :=
  let t := t ++ [Event.request ApiCall.nodes]
  match k.clientset.listNodes with
  | .error err => (some (Errorf "failed to list nodes: " err), t)
  | .ok nodes =>
    let t := Printf t ("Cluster has " ++ toString nodes.length ++ " nodes:\n")
    let t := nodes.foldl (fun t node => Printf t (nodeLine k node)) t
    (none, t)

/-! ## `main` -/

/-- The namespace that `main` passes to `ListPods`. -/
def targetNamespace (env : String → Option String) : String :=
  let ns := Getenv env "TARGET_NAMESPACE"
  if ns = "" then "default" else ns

/-- The statement `if err := op; err != nil` followed by `log.Printf(text + "%v", err)`. -/
def logIfError (pre : String) (r : Option GoError × Trace) : Trace :=
  match r.1 with
  | some err => logPrintf r.2 (pre ++ err.Error)
  | none => r.2

/-- The log records that `logIfError` adds for a returned error. -/
def errorLog (pre : String) : Option GoError → List Event
  | some err => [Event.log (pre ++ err.Error)]
  | none => []

/-- One pass through the body of the loop of `main`. -/
def cycle (client : K8sClient) (ns : String) (t : Trace) : Trace :=
  let t := logPrintf t "=== Kubernetes API Information ==="
  let t := logIfError "Error getting cluster info: " (GetClusterInfo client t)
  let t := Println t
  let t := logIfError "Error listing namespaces: " (ListNamespaces client t)
  let t := Println t
  let t := logIfError "Error listing pods: " (ListPods client ns t)
  let t := logPrintf t "=== End of Information ==="
  let t := logPrintf t "Waiting 30 seconds before next update..."
  t ++ [Event.sleep 30]

/-- The loop of `main`, observed for as many cycles as there are answer sets:
`answers` holds what the API server answers in each successive cycle, and the
identity of the client never changes. -/
def mainLoop (client : K8sClient) (ns : String) (answers : List Clientset) (t : Trace) : Trace :=
  answers.foldl
    (fun t cs => cycle ⟨cs, client.podName, client.podNamespace, client.nodeName⟩ ns t) t

/-- The function `main`, observed for `answers.length` cycles of its loop.  A
failure of `NewK8sClient` is fatal: `log.Fatalf` logs and exits with status 1. -/
def main (p : Platform) (answers : List Clientset) : Trace :=
  let t := logPrintf [] "Starting Kubernetes API client..."
  match NewK8sClient p with
  | .error err =>
    logPrintf t ("Failed to create Kubernetes client: " ++ err.Error) ++ [Event.exit 1]
  | .ok client =>
    let t := logPrintf t "Pod metadata from Downward API:"
    let t := logPrintf t ("  Pod Name: " ++ client.podName)
    let t := logPrintf t ("  Pod Namespace: " ++ client.podNamespace)
    let t := logPrintf t ("  Node Name: " ++ client.nodeName)
    mainLoop client (targetNamespace p.env) answers t

/-! ## Predicates on printed lines -/

/-- The line opens with the yellow escape sequence. -/
def startsYellow (line : String) : Prop := ColorYellow.data <+: line.data

/-- The line closes with `marker`, the reset sequence and the newline. -/
def endsWithMarker (marker line : String) : Prop :=
  (marker ++ ColorReset ++ "\n").data <:+ line.data

/-- The line is wrapped in the highlight: yellow sequence first, reset sequence
right before the newline. -/
def highlighted (line : String) : Prop := startsYellow line ∧ endsWithMarker "" line

/-- The line carries the self marker `marker`: it is highlighted and the marker
text stands right before the reset sequence. -/
def carriesMarker (marker line : String) : Prop :=
  highlighted line ∧ endsWithMarker marker line

/-- The line closes with a newline. -/
def endsNewline (line : String) : Prop := ("\n" : String).data <:+ line.data

/-- The text `part` occurs in `line`. -/
def occursIn (part line : String) : Prop := part.data <:+: line.data

/-- The text holds no escape character (code point 27), the character that
opens both colour sequences. -/
def escapeFree (s : String) : Prop := Char.ofNat 27 ∉ s.data

instance (s : String) : Decidable (escapeFree s) := by
  unfold escapeFree; infer_instance

instance (line : String) : Decidable (startsYellow line) := by
  unfold startsYellow; infer_instance

instance (marker line : String) : Decidable (endsWithMarker marker line) := by
  unfold endsWithMarker; infer_instance

instance (line : String) : Decidable (highlighted line) := by
  unfold highlighted; infer_instance

instance (marker line : String) : Decidable (carriesMarker marker line) := by
  unfold carriesMarker; infer_instance

instance (line : String) : Decidable (endsNewline line) := by
  unfold endsNewline; infer_instance

instance (part line : String) : Decidable (occursIn part line) := by
  unfold occursIn; infer_instance

/-- The conditions that the inner loop of `GetClusterInfo` inspects before it is
left: `readyScan` with a record of the iterations. -/
def readyScanVisited : List NodeCondition → List NodeCondition
  | [] => []
  | condition :: rest =>
    if condition.condType = "Ready" ∧ condition.Status = "True" then [condition]
    else condition :: readyScanVisited rest

/-! ## Concrete inputs -/

/-- A ready node named `n1` running kubelet `v1.28`. -/
def exampleNode : Node := ⟨"n1", ⟨[⟨"Ready", "True"⟩], ⟨"v1.28"⟩⟩⟩

/-- A node named `n2` whose only `Ready` condition has status `False`. -/
def exampleNodeDown : Node := ⟨"n2", ⟨[⟨"MemoryPressure", "False"⟩, ⟨"Ready", "False"⟩], ⟨"v1.27"⟩⟩⟩

/-- The pods of a namespace: a running `p1` and a pending `p2`. -/
def examplePods (ns : String) : List Pod := [⟨"p1", ns, ⟨"Running"⟩⟩, ⟨"p2", ns, ⟨"Pending"⟩⟩]

/-- The namespaces `default` and `kube-system`. -/
def exampleNamespaces : List Namespace := [⟨"default", ⟨"Active"⟩⟩, ⟨"kube-system", ⟨"Active"⟩⟩]

/-- An API server with two nodes, two namespaces and two pods in each namespace. -/
def exampleClientset : Clientset :=
  ⟨.ok [exampleNode, exampleNodeDown], .ok exampleNamespaces, fun ns => .ok (examplePods ns)⟩

/-- A client whose three identity variables are unset. -/
def anonymousClient : K8sClient := ⟨exampleClientset, "", "", ""⟩

/-- A client for which the node query fails while the two other queries answer. -/
def nodesDownClient : K8sClient :=
  ⟨⟨.error (.api "connection refused"), .ok exampleNamespaces, fun ns => .ok (examplePods ns)⟩,
    "p1", "kube-system", "n1"⟩

/-- A client that runs as pod `p1` of namespace `kube-system` on node `n1`. -/
def exampleClient : K8sClient := ⟨exampleClientset, "p1", "kube-system", "n1"⟩

/-- The environment in which only `TARGET_NAMESPACE` is set, to `staging`. -/
def exampleEnv : String → Option String :=
  fun key => if key = "TARGET_NAMESPACE" then some "staging" else none

/-! ## Lemmas on the readiness scan -/

theorem readyScan_eq (l : List NodeCondition) (ready : String) :
    readyScan l ready =
      if ∃ c ∈ l, c.condType = "Ready" ∧ c.Status = "True" then "Ready" else ready := by
  induction l with
  | nil => simp [readyScan]
  | cons c rest ih =>
    by_cases hc : c.condType = "Ready" ∧ c.Status = "True"
    · have hex : ∃ d ∈ c :: rest, d.condType = "Ready" ∧ d.Status = "True" :=
        ⟨c, List.mem_cons_self _ _, hc⟩
      rw [if_pos hex]
      simp [readyScan, hc]
    · rw [readyScan, if_neg hc, ih]
      by_cases hr : ∃ d ∈ rest, d.condType = "Ready" ∧ d.Status = "True"
      · obtain ⟨d, hd, hd2⟩ := hr
        rw [if_pos ⟨d, hd, hd2⟩, if_pos ⟨d, List.mem_cons_of_mem _ hd, hd2⟩]
      · have hn : ¬ ∃ d ∈ c :: rest, d.condType = "Ready" ∧ d.Status = "True" := by
          rintro ⟨d, hd, hd2⟩
          rcases List.mem_cons.mp hd with rfl | hd
          · exact hc hd2
          · exact hr ⟨d, hd, hd2⟩
        rw [if_neg hr, if_neg hn]

theorem readyScan_ready_iff (l : List NodeCondition) :
    readyScan l "NotReady" = "Ready" ↔ ∃ c ∈ l, c.condType = "Ready" ∧ c.Status = "True" := by
  rw [readyScan_eq]
  by_cases h : ∃ c ∈ l, c.condType = "Ready" ∧ c.Status = "True"
  · simp [h]
  · rw [if_neg h]
    exact ⟨fun hh => absurd hh (by decide), fun hh => absurd hh h⟩

theorem readyScan_notReady (l : List NodeCondition)
    (h : ¬ ∃ c ∈ l, c.condType = "Ready" ∧ c.Status = "True") :
    readyScan l "NotReady" = "NotReady" := by
  rw [readyScan_eq, if_neg h]

theorem readyScan_perm {l₁ l₂ : List NodeCondition} (h : l₁.Perm l₂) (ready : String) :
    readyScan l₁ ready = readyScan l₂ ready := by
  rw [readyScan_eq, readyScan_eq]
  have : (∃ c ∈ l₁, c.condType = "Ready" ∧ c.Status = "True") ↔
      (∃ c ∈ l₂, c.condType = "Ready" ∧ c.Status = "True") := by
    constructor
    · rintro ⟨c, hc, hc2⟩; exact ⟨c, h.mem_iff.mp hc, hc2⟩
    · rintro ⟨c, hc, hc2⟩; exact ⟨c, h.mem_iff.mpr hc, hc2⟩
  by_cases h1 : ∃ c ∈ l₁, c.condType = "Ready" ∧ c.Status = "True"
  · rw [if_pos h1, if_pos (this.mp h1)]
  · rw [if_neg h1, if_neg (fun h2 => h1 (this.mpr h2))]

theorem readyScanVisited_first_match (pre rest : List NodeCondition) (c : NodeCondition)
    (hpre : ∀ d ∈ pre, ¬ (d.condType = "Ready" ∧ d.Status = "True"))
    (hc : c.condType = "Ready" ∧ c.Status = "True") :
    readyScanVisited (pre ++ c :: rest) = pre ++ [c] := by
  induction pre with
  | nil => simp [readyScanVisited, hc]
  | cons d pre ih =>
    have hd : ¬ (d.condType = "Ready" ∧ d.Status = "True") := hpre d (List.mem_cons_self _ _)
    have ih2 := ih (fun e he => hpre e (List.mem_cons_of_mem _ he))
    simp only [List.cons_append, readyScanVisited, if_neg hd, List.append_eq, ih2]

/-! ## Lemmas on the traces of the three operations -/

theorem foldl_Printf {α : Type} (f : α → String) (l : List α) (t : Trace) :
    l.foldl (fun t x => Printf t (f x)) t = t ++ l.map (fun x => Event.stdout (f x)) := by
  induction l generalizing t with
  | nil => simp
  | cons x l ih =>
    rw [List.foldl_cons, ih, List.map_cons]
    simp only [Printf, List.append_assoc, List.singleton_append]

theorem GetClusterInfo_ok (k : K8sClient) (nodes : List Node) (t : Trace)
    (h : k.clientset.listNodes = .ok nodes) :
    GetClusterInfo k t = (none, t ++ Event.request ApiCall.nodes ::
      Event.stdout ("Cluster has " ++ toString nodes.length ++ " nodes:\n") ::
      nodes.map (fun node => Event.stdout (nodeLine k node))) := by
  simp only [GetClusterInfo, h, foldl_Printf]
  simp [Printf]

theorem GetClusterInfo_error (k : K8sClient) (err : GoError) (t : Trace)
    (h : k.clientset.listNodes = .error err) :
    GetClusterInfo k t =
      (some (GoError.wrapped ("failed to list nodes: " ++ err.Error) err),
        t ++ [Event.request ApiCall.nodes]) := by
  simp [GetClusterInfo, h, Errorf]

theorem ListNamespaces_ok (k : K8sClient) (namespaces : List Namespace) (t : Trace)
    (h : k.clientset.listNamespaces = .ok namespaces) :
    ListNamespaces k t = (none, t ++ Event.request ApiCall.namespaces ::
      Event.stdout ("Found " ++ toString namespaces.length ++ " namespaces:\n") ::
      namespaces.map (fun ns => Event.stdout (namespaceLine k ns))) := by
  simp only [ListNamespaces, h, foldl_Printf]
  simp [Printf]

theorem ListNamespaces_error (k : K8sClient) (err : GoError) (t : Trace)
    (h : k.clientset.listNamespaces = .error err) :
    ListNamespaces k t =
      (some (GoError.wrapped ("failed to list namespaces: " ++ err.Error) err),
        t ++ [Event.request ApiCall.namespaces]) := by
  simp [ListNamespaces, h, Errorf]

theorem ListPods_ok (k : K8sClient) (ns : String) (pods : List Pod) (t : Trace)
    (h : k.clientset.listPods ns = .ok pods) :
    ListPods k ns t = (none, t ++ Event.request (ApiCall.pods ns) ::
      Event.stdout ("Found " ++ toString pods.length ++ " pods in namespace '" ++ ns ++ "':\n") ::
      pods.map (fun pod => Event.stdout (podLine k pod))) := by
  simp only [ListPods, h, foldl_Printf]
  simp [Printf]

theorem ListPods_error (k : K8sClient) (ns : String) (err : GoError) (t : Trace)
    (h : k.clientset.listPods ns = .error err) :
    ListPods k ns t =
      (some (GoError.wrapped ("failed to list pods: " ++ err.Error) err),
        t ++ [Event.request (ApiCall.pods ns)]) := by
  simp [ListPods, h, Errorf]

theorem GetClusterInfo_append (k : K8sClient) (t : Trace) :
    GetClusterInfo k t = ((GetClusterInfo k []).1, t ++ (GetClusterInfo k []).2) := by
  cases h : k.clientset.listNodes with
  | error err => rw [GetClusterInfo_error k err t h, GetClusterInfo_error k err [] h]; rfl
  | ok nodes => rw [GetClusterInfo_ok k nodes t h, GetClusterInfo_ok k nodes [] h]; rfl

theorem ListNamespaces_append (k : K8sClient) (t : Trace) :
    ListNamespaces k t = ((ListNamespaces k []).1, t ++ (ListNamespaces k []).2) := by
  cases h : k.clientset.listNamespaces with
  | error err => rw [ListNamespaces_error k err t h, ListNamespaces_error k err [] h]; rfl
  | ok nss => rw [ListNamespaces_ok k nss t h, ListNamespaces_ok k nss [] h]; rfl

theorem ListPods_append (k : K8sClient) (ns : String) (t : Trace) :
    ListPods k ns t = ((ListPods k ns []).1, t ++ (ListPods k ns []).2) := by
  cases h : k.clientset.listPods ns with
  | error err => rw [ListPods_error k ns err t h, ListPods_error k ns err [] h]; rfl
  | ok pods => rw [ListPods_ok k ns pods t h, ListPods_ok k ns pods [] h]; rfl

theorem requestsOf_append (t u : Trace) : requestsOf (t ++ u) = requestsOf t ++ requestsOf u := by
  simp [requestsOf, List.filterMap_append]

theorem stdoutOf_append (t u : Trace) : stdoutOf (t ++ u) = stdoutOf t ++ stdoutOf u := by
  simp [stdoutOf, List.filterMap_append]

theorem logOf_append (t u : Trace) : logOf (t ++ u) = logOf t ++ logOf u := by
  simp [logOf, List.filterMap_append]

theorem requestsOf_map_stdout {α : Type} (f : α → String) (l : List α) :
    requestsOf (l.map (fun x => Event.stdout (f x))) = [] := by
  induction l with
  | nil => rfl
  | cons x l ih => simp [requestsOf]

theorem logOf_map_stdout {α : Type} (f : α → String) (l : List α) :
    logOf (l.map (fun x => Event.stdout (f x))) = [] := by
  induction l with
  | nil => rfl
  | cons x l ih => simp [logOf]

theorem stdoutOf_map_stdout {α : Type} (f : α → String) (l : List α) :
    stdoutOf (l.map (fun x => Event.stdout (f x))) = l.map f := by
  induction l with
  | nil => rfl
  | cons x l ih => simpa [stdoutOf] using ih

theorem requestsOf_GetClusterInfo (k : K8sClient) :
    requestsOf (GetClusterInfo k []).2 = [ApiCall.nodes] := by
  cases h : k.clientset.listNodes with
  | error err => rw [GetClusterInfo_error k err [] h]; rfl
  | ok nodes =>
    rw [GetClusterInfo_ok k nodes [] h]
    simp [requestsOf]

theorem requestsOf_ListNamespaces (k : K8sClient) :
    requestsOf (ListNamespaces k []).2 = [ApiCall.namespaces] := by
  cases h : k.clientset.listNamespaces with
  | error err => rw [ListNamespaces_error k err [] h]; rfl
  | ok nss =>
    rw [ListNamespaces_ok k nss [] h]
    simp [requestsOf]

theorem requestsOf_ListPods (k : K8sClient) (ns : String) :
    requestsOf (ListPods k ns []).2 = [ApiCall.pods ns] := by
  cases h : k.clientset.listPods ns with
  | error err => rw [ListPods_error k ns err [] h]; rfl
  | ok pods =>
    rw [ListPods_ok k ns pods [] h]
    simp [requestsOf]

theorem logOf_GetClusterInfo (k : K8sClient) : logOf (GetClusterInfo k []).2 = [] := by
  cases h : k.clientset.listNodes with
  | error err => rw [GetClusterInfo_error k err [] h]; rfl
  | ok nodes =>
    rw [GetClusterInfo_ok k nodes [] h]
    simp [logOf]

theorem logOf_ListNamespaces (k : K8sClient) : logOf (ListNamespaces k []).2 = [] := by
  cases h : k.clientset.listNamespaces with
  | error err => rw [ListNamespaces_error k err [] h]; rfl
  | ok nss =>
    rw [ListNamespaces_ok k nss [] h]
    simp [logOf]

theorem logOf_ListPods (k : K8sClient) (ns : String) : logOf (ListPods k ns []).2 = [] := by
  cases h : k.clientset.listPods ns with
  | error err => rw [ListPods_error k ns err [] h]; rfl
  | ok pods =>
    rw [ListPods_ok k ns pods [] h]
    simp [logOf]

theorem logIfError_eq (pre : String) (r : Option GoError × Trace) :
    logIfError pre r = r.2 ++ errorLog pre r.1 := by
  rcases r with ⟨e, t⟩
  cases e <;> simp [logIfError, errorLog, logPrintf]

theorem requestsOf_errorLog (pre : String) (e : Option GoError) :
    requestsOf (errorLog pre e) = [] := by
  cases e <;> rfl

theorem stdoutOf_errorLog (pre : String) (e : Option GoError) :
    stdoutOf (errorLog pre e) = [] := by
  cases e <;> rfl

/-- The actions of one pass through the loop body of `main`, in order. -/
theorem cycle_eq (client : K8sClient) (ns : String) (t : Trace) :
    cycle client ns t = t ++ ([Event.log "=== Kubernetes API Information ==="]
      ++ (GetClusterInfo client []).2
      ++ errorLog "Error getting cluster info: " (GetClusterInfo client []).1
      ++ [Event.stdout "\n"]
      ++ (ListNamespaces client []).2
      ++ errorLog "Error listing namespaces: " (ListNamespaces client []).1
      ++ [Event.stdout "\n"]
      ++ (ListPods client ns []).2
      ++ errorLog "Error listing pods: " (ListPods client ns []).1
      ++ [Event.log "=== End of Information ===",
          Event.log "Waiting 30 seconds before next update...", Event.sleep 30]) := by
  unfold cycle
  simp only [logIfError_eq, logPrintf, Println]
  rw [GetClusterInfo_append client (t ++ _)]
  simp only []
  rw [ListNamespaces_append client (_ ++ _)]
  simp only []
  rw [ListPods_append client ns (_ ++ _)]
  simp only [List.append_assoc, List.singleton_append, List.cons_append, List.nil_append]

theorem requestsOf_cycle (client : K8sClient) (ns : String) (t : Trace) :
    requestsOf (cycle client ns t)
      = requestsOf t ++ [ApiCall.nodes, ApiCall.namespaces, ApiCall.pods ns] := by
  rw [cycle_eq]
  simp only [requestsOf_append, requestsOf_GetClusterInfo, requestsOf_ListNamespaces,
    requestsOf_ListPods, requestsOf_errorLog]
  simp [requestsOf]

theorem requestsOf_mainLoop (client : K8sClient) (ns : String) (answers : List Clientset)
    (t : Trace) :
    requestsOf (mainLoop client ns answers t) = requestsOf t ++
      (List.replicate answers.length
        [ApiCall.nodes, ApiCall.namespaces, ApiCall.pods ns]).flatten := by
  unfold mainLoop
  induction answers generalizing t with
  | nil => simp
  | cons cs rest ih =>
    rw [List.foldl_cons, ih, requestsOf_cycle]
    simp [List.replicate_succ]

/-! ## Lemmas on printed lines -/

theorem not_yellow_prefix_of_dash (rest : String) : ¬ startsYellow ("- " ++ rest) := by
  unfold startsYellow
  rw [String.data_append]
  have hY : ColorYellow.data = [Char.ofNat 27, Char.ofNat 91, Char.ofNat 51, Char.ofNat 51,
      Char.ofNat 109] := by decide
  have hD : ("- " : String).data = [Char.ofNat 45, Char.ofNat 32] := by decide
  rw [hY, hD, List.cons_append, List.cons_prefix_cons]
  rintro ⟨h, -⟩
  exact absurd h (by decide)

theorem not_marker_suffix_of_paren (marker body : String) :
    ¬ endsWithMarker marker (body ++ ")\n") := by
  unfold endsWithMarker
  rw [String.data_append, String.data_append, String.data_append, ← List.reverse_prefix]
  have hR : ColorReset.data = [Char.ofNat 27, Char.ofNat 91, Char.ofNat 48, Char.ofNat 109] := by
    decide
  have hN : ("\n" : String).data = [Char.ofNat 10] := by decide
  have hP : (")\n" : String).data = [Char.ofNat 41, Char.ofNat 10] := by decide
  rw [hR, hN, hP]
  simp only [List.reverse_append, List.reverse_cons, List.reverse_nil, List.nil_append,
    List.cons_append, List.cons_prefix_cons]
  rintro ⟨-, h, -⟩
  exact absurd h (by decide)

theorem yellow_prefix (rest : String) : startsYellow (ColorYellow ++ rest) := by
  unfold startsYellow
  rw [String.data_append]
  exact List.prefix_append _ _

theorem marker_suffix (body marker : String) :
    endsWithMarker marker (body ++ marker ++ ColorReset ++ "\n") := by
  unfold endsWithMarker
  simp only [String.data_append, List.append_assoc]
  exact List.suffix_append _ _

theorem reset_suffix (body : String) : endsWithMarker "" (body ++ ColorReset ++ "\n") := by
  unfold endsWithMarker
  simp only [String.data_append, List.append_assoc]
  rw [List.nil_append]
  exact List.suffix_append _ _

theorem not_yellow_prefix_of_head (head rest : String) (c : Char) (l : List Char)
    (hh : head.data = c :: l) (hc : c ≠ Char.ofNat 27) : ¬ startsYellow (head ++ rest) := by
  unfold startsYellow
  rw [String.data_append, hh]
  have hY : ColorYellow.data = [Char.ofNat 27, Char.ofNat 91, Char.ofNat 51, Char.ofNat 51,
      Char.ofNat 109] := by decide
  rw [hY, List.cons_append, List.cons_prefix_cons]
  rintro ⟨h, -⟩
  exact hc h.symm

theorem not_marker_suffix_of_tail (marker body tail : String) (c : Char) (l : List Char)
    (ht : tail.data = l ++ [c, Char.ofNat 10]) (hc : c ≠ Char.ofNat 109) :
    ¬ endsWithMarker marker (body ++ tail) := by
  unfold endsWithMarker
  rw [String.data_append, String.data_append, String.data_append, ← List.reverse_prefix, ht]
  have hR : ColorReset.data = [Char.ofNat 27, Char.ofNat 91, Char.ofNat 48, Char.ofNat 109] := by
    decide
  have hN : ("\n" : String).data = [Char.ofNat 10] := by decide
  rw [hR, hN]
  simp only [List.reverse_append, List.reverse_cons, List.reverse_nil, List.nil_append,
    List.cons_append, List.cons_prefix_cons]
  rintro ⟨-, h, -⟩
  exact hc h.symm

/-- A line of the marked format carries its marker. -/
theorem carriesMarker_marked (body marker : String) :
    carriesMarker marker (ColorYellow ++ body ++ marker ++ ColorReset ++ "\n") := by
  refine ⟨⟨?_, reset_suffix _⟩, marker_suffix _ _⟩
  simp only [String.append_assoc]
  exact yellow_prefix _

/-- A line of the plain format carries no marker and is not highlighted. -/
theorem plain_not_highlighted (rest : String) : ¬ highlighted ("- " ++ rest) :=
  fun h => not_yellow_prefix_of_dash rest h.1

theorem plain_not_carriesMarker (marker rest : String) : ¬ carriesMarker marker ("- " ++ rest) :=
  fun h => plain_not_highlighted rest h.1

theorem podLine_self (k : K8sClient) (pod : Pod)
    (h : pod.Name = k.podName ∧ pod.Namespace = k.podNamespace) :
    podLine k pod = ColorYellow ++ "- " ++ pod.Name ++ " (Phase: " ++ pod.Status.Phase
      ++ ") <- THIS IS ME!" ++ ColorReset ++ "\n" := by
  unfold podLine
  rw [if_pos h]

theorem podLine_other (k : K8sClient) (pod : Pod)
    (h : ¬ (pod.Name = k.podName ∧ pod.Namespace = k.podNamespace)) :
    podLine k pod = "- " ++ pod.Name ++ " (Phase: " ++ pod.Status.Phase ++ ")\n" := by
  unfold podLine
  rw [if_neg h]

theorem carriesMarker_podLine_iff (k : K8sClient) (pod : Pod) :
    carriesMarker "<- THIS IS ME!" (podLine k pod) ↔
      pod.Name = k.podName ∧ pod.Namespace = k.podNamespace := by
  constructor
  · intro hm
    by_contra hn
    rw [podLine_other k pod hn] at hm
    simp only [String.append_assoc] at hm
    exact plain_not_carriesMarker _ _ hm
  · intro h
    rw [podLine_self k pod h]
    have hlit : (") <- THIS IS ME!" : String) = ") " ++ "<- THIS IS ME!" := by decide
    have := carriesMarker_marked ("- " ++ pod.Name ++ " (Phase: " ++ pod.Status.Phase ++ ") ")
      "<- THIS IS ME!"
    rw [hlit]
    simpa only [String.append_assoc] using this

theorem namespaceLine_self (k : K8sClient) (ns : Namespace) (h : ns.Name = k.podNamespace) :
    namespaceLine k ns = ColorYellow ++ "- " ++ ns.Name ++ " (Phase: " ++ ns.Status.Phase
      ++ ") <- MY NAMESPACE" ++ ColorReset ++ "\n" := by
  unfold namespaceLine
  rw [if_pos h]

theorem namespaceLine_other (k : K8sClient) (ns : Namespace) (h : ¬ ns.Name = k.podNamespace) :
    namespaceLine k ns = "- " ++ ns.Name ++ " (Phase: " ++ ns.Status.Phase ++ ")\n" := by
  unfold namespaceLine
  rw [if_neg h]

theorem carriesMarker_namespaceLine_iff (k : K8sClient) (ns : Namespace) :
    carriesMarker "<- MY NAMESPACE" (namespaceLine k ns) ↔ ns.Name = k.podNamespace := by
  constructor
  · intro hm
    by_contra hn
    rw [namespaceLine_other k ns hn] at hm
    simp only [String.append_assoc] at hm
    exact plain_not_carriesMarker _ _ hm
  · intro h
    rw [namespaceLine_self k ns h]
    have hlit : (") <- MY NAMESPACE" : String) = ") " ++ "<- MY NAMESPACE" := by decide
    have := carriesMarker_marked ("- " ++ ns.Name ++ " (Phase: " ++ ns.Status.Phase ++ ") ")
      "<- MY NAMESPACE"
    rw [hlit]
    simpa only [String.append_assoc] using this

theorem nodeLine_self (k : K8sClient) (node : Node) (h : node.Name = k.nodeName) :
    nodeLine k node = ColorYellow ++ "- " ++ node.Name ++ " ("
      ++ node.Status.NodeInfo.KubeletVersion ++ ", " ++ nodeReady node ++ ") <- MY NODE"
      ++ ColorReset ++ "\n" := by
  unfold nodeLine nodeEntry
  rw [if_pos h]

theorem nodeLine_other (k : K8sClient) (node : Node) (h : ¬ node.Name = k.nodeName) :
    nodeLine k node = "- " ++ node.Name ++ " (" ++ node.Status.NodeInfo.KubeletVersion ++ ", "
      ++ nodeReady node ++ ")\n" := by
  unfold nodeLine nodeEntry
  rw [if_neg h]

theorem carriesMarker_nodeLine_iff (k : K8sClient) (node : Node) :
    carriesMarker "<- MY NODE" (nodeLine k node) ↔ node.Name = k.nodeName := by
  constructor
  · intro hm
    by_contra hn
    rw [nodeLine_other k node hn] at hm
    simp only [String.append_assoc] at hm
    exact plain_not_carriesMarker _ _ hm
  · intro h
    rw [nodeLine_self k node h]
    have hlit : (") <- MY NODE" : String) = ") " ++ "<- MY NODE" := by decide
    have := carriesMarker_marked ("- " ++ node.Name ++ " ("
      ++ node.Status.NodeInfo.KubeletVersion ++ ", " ++ nodeReady node ++ ") ") "<- MY NODE"
    rw [hlit]
    simpa only [String.append_assoc] using this

theorem endsNewline_append (body : String) : endsNewline (body ++ "\n") := by
  unfold endsNewline
  rw [String.data_append]
  exact List.suffix_append _ _

theorem endsNewline_paren (body : String) : endsNewline (body ++ ")\n") := by
  have hlit : (")\n" : String) = ")" ++ "\n" := by decide
  rw [hlit, ← String.append_assoc]
  exact endsNewline_append _

theorem endsNewline_podLine (k : K8sClient) (pod : Pod) : endsNewline (podLine k pod) := by
  unfold podLine
  split
  · exact endsNewline_append _
  · exact endsNewline_paren _

theorem endsNewline_namespaceLine (k : K8sClient) (ns : Namespace) :
    endsNewline (namespaceLine k ns) := by
  unfold namespaceLine
  split
  · exact endsNewline_append _
  · exact endsNewline_paren _

theorem endsNewline_nodeLine (k : K8sClient) (node : Node) : endsNewline (nodeLine k node) := by
  unfold nodeLine nodeEntry
  split
  · exact endsNewline_append _
  · exact endsNewline_paren _

theorem plain_entry_unmarked (rest : String) :
    ¬ startsYellow ("- " ++ rest ++ ")\n") ∧ ∀ marker, ¬ endsWithMarker marker ("- " ++ rest ++ ")\n") := by
  refine ⟨?_, fun marker => not_marker_suffix_of_paren marker _⟩
  rw [String.append_assoc]
  exact not_yellow_prefix_of_dash _

theorem nodes_header_unmarked (n : Nat) :
    ¬ startsYellow ("Cluster has " ++ toString n ++ " nodes:\n")
    ∧ ∀ marker, ¬ endsWithMarker marker ("Cluster has " ++ toString n ++ " nodes:\n") := by
  refine ⟨?_, fun marker => ?_⟩
  · rw [String.append_assoc]
    exact not_yellow_prefix_of_head "Cluster has " _ (Char.ofNat 67) "luster has ".data
      (by decide) (by decide)
  · exact not_marker_suffix_of_tail marker _ " nodes:\n" (Char.ofNat 58) " nodes".data
      (by decide) (by decide)

theorem namespaces_header_unmarked (n : Nat) :
    ¬ startsYellow ("Found " ++ toString n ++ " namespaces:\n")
    ∧ ∀ marker, ¬ endsWithMarker marker ("Found " ++ toString n ++ " namespaces:\n") := by
  refine ⟨?_, fun marker => ?_⟩
  · rw [String.append_assoc]
    exact not_yellow_prefix_of_head "Found " _ (Char.ofNat 70) "ound ".data
      (by decide) (by decide)
  · exact not_marker_suffix_of_tail marker _ " namespaces:\n" (Char.ofNat 58)
      " namespaces".data (by decide) (by decide)

theorem pods_header_unmarked (n : Nat) (ns : String) :
    ¬ startsYellow ("Found " ++ toString n ++ " pods in namespace '" ++ ns ++ "':\n")
    ∧ ∀ marker, ¬ endsWithMarker marker
        ("Found " ++ toString n ++ " pods in namespace '" ++ ns ++ "':\n") := by
  refine ⟨?_, fun marker => ?_⟩
  · simp only [String.append_assoc]
    exact not_yellow_prefix_of_head "Found " _ (Char.ofNat 70) "ound ".data
      (by decide) (by decide)
  · exact not_marker_suffix_of_tail marker _ "':\n" (Char.ofNat 58) [Char.ofNat 39]
      (by decide) (by decide)

theorem stdoutOf_GetClusterInfo_ok (k : K8sClient) (nodes : List Node) (t : Trace)
    (h : k.clientset.listNodes = .ok nodes) :
    stdoutOf (GetClusterInfo k t).2 = stdoutOf t ++
      ("Cluster has " ++ toString nodes.length ++ " nodes:\n") :: nodes.map (nodeLine k) := by
  rw [GetClusterInfo_ok k nodes t h]
  simp only [stdoutOf_append]
  congr 1
  have := stdoutOf_map_stdout (nodeLine k) nodes
  simpa [stdoutOf] using this

theorem stdoutOf_ListNamespaces_ok (k : K8sClient) (namespaces : List Namespace) (t : Trace)
    (h : k.clientset.listNamespaces = .ok namespaces) :
    stdoutOf (ListNamespaces k t).2 = stdoutOf t ++
      ("Found " ++ toString namespaces.length ++ " namespaces:\n") ::
      namespaces.map (namespaceLine k) := by
  rw [ListNamespaces_ok k namespaces t h]
  simp only [stdoutOf_append]
  congr 1
  have := stdoutOf_map_stdout (namespaceLine k) namespaces
  simpa [stdoutOf] using this

theorem stdoutOf_ListPods_ok (k : K8sClient) (ns : String) (pods : List Pod) (t : Trace)
    (h : k.clientset.listPods ns = .ok pods) :
    stdoutOf (ListPods k ns t).2 = stdoutOf t ++
      ("Found " ++ toString pods.length ++ " pods in namespace '" ++ ns ++ "':\n") ::
      pods.map (podLine k) := by
  rw [ListPods_ok k ns pods t h]
  simp only [stdoutOf_append]
  congr 1
  have := stdoutOf_map_stdout (podLine k) pods
  simpa [stdoutOf] using this

theorem stdoutOf_GetClusterInfo_error (k : K8sClient) (err : GoError) (t : Trace)
    (h : k.clientset.listNodes = .error err) :
    stdoutOf (GetClusterInfo k t).2 = stdoutOf t := by
  rw [GetClusterInfo_error k err t h]
  simp [stdoutOf_append, stdoutOf]

theorem stdoutOf_ListNamespaces_error (k : K8sClient) (err : GoError) (t : Trace)
    (h : k.clientset.listNamespaces = .error err) :
    stdoutOf (ListNamespaces k t).2 = stdoutOf t := by
  rw [ListNamespaces_error k err t h]
  simp [stdoutOf_append, stdoutOf]

theorem stdoutOf_ListPods_error (k : K8sClient) (ns : String) (err : GoError) (t : Trace)
    (h : k.clientset.listPods ns = .error err) :
    stdoutOf (ListPods k ns t).2 = stdoutOf t := by
  rw [ListPods_error k ns err t h]
  simp [stdoutOf_append, stdoutOf]

/-! ## Lemmas on lines without escape character -/

theorem digitChar_ne_escape : ∀ m, m < 10 → Nat.digitChar m ≠ Char.ofNat 27 := by decide

theorem toDigitsCore_escape (fuel : Nat) : ∀ (n : Nat) (ds : List Char),
    Char.ofNat 27 ∉ ds → Char.ofNat 27 ∉ Nat.toDigitsCore 10 fuel n ds := by
  induction fuel with
  | zero => intro n ds h; simpa [Nat.toDigitsCore] using h
  | succ fuel ih =>
    intro n ds h
    have hd : Char.ofNat 27 ∉ Nat.digitChar (n % 10) :: ds := by
      intro hm
      rcases List.mem_cons.mp hm with he | hm
      · exact digitChar_ne_escape (n % 10) (Nat.mod_lt _ (by decide)) he.symm
      · exact h hm
    simp only [Nat.toDigitsCore]
    split
    · exact hd
    · exact ih _ _ hd

theorem escapeFree_toString (n : Nat) : escapeFree (toString n) := by
  have h : (toString n).data = Nat.toDigits 10 n := rfl
  unfold escapeFree
  rw [h]
  exact toDigitsCore_escape _ _ _ (List.not_mem_nil _)

theorem escapeFree_append (a b : String) :
    escapeFree (a ++ b) ↔ escapeFree a ∧ escapeFree b := by
  simp [escapeFree, String.data_append, not_or]

theorem escapeFree_nodeReady (node : Node) : escapeFree (nodeReady node) := by
  unfold nodeReady
  rw [readyScan_eq]
  split <;> decide

theorem not_occursIn_yellow (line : String) (h : escapeFree line) :
    ¬ occursIn ColorYellow line := by
  intro hin
  exact h (hin.subset (by decide))

theorem not_occursIn_reset (line : String) (h : escapeFree line) :
    ¬ occursIn ColorReset line := by
  intro hin
  exact h (hin.subset (by decide))

theorem occursIn_yellow_of_startsYellow (line : String) (h : startsYellow line) :
    occursIn ColorYellow line :=
  List.IsPrefix.isInfix h

theorem occursIn_of_endsWithMarker (marker line : String) (h : endsWithMarker marker line) :
    occursIn marker line := by
  unfold endsWithMarker at h
  rw [String.append_assoc, String.data_append] at h
  exact (List.prefix_append _ _).isInfix.trans h.isInfix

theorem escapeFree_plain_entry (name mid rest : String) (hmid : escapeFree mid)
    (hname : escapeFree name) (hrest : escapeFree rest) :
    escapeFree ("- " ++ name ++ mid ++ rest ++ ")\n") := by
  simp only [escapeFree_append]
  exact ⟨⟨⟨⟨by decide, hname⟩, hmid⟩, hrest⟩, by decide⟩

theorem escapeFree_podLine_other (k : K8sClient) (pod : Pod)
    (hn : ¬ (pod.Name = k.podName ∧ pod.Namespace = k.podNamespace))
    (h1 : escapeFree pod.Name) (h2 : escapeFree pod.Status.Phase) :
    escapeFree (podLine k pod) := by
  rw [podLine_other k pod hn]
  exact escapeFree_plain_entry _ " (Phase: " _ (by decide) h1 h2

theorem escapeFree_namespaceLine_other (k : K8sClient) (ns : Namespace)
    (hn : ¬ ns.Name = k.podNamespace)
    (h1 : escapeFree ns.Name) (h2 : escapeFree ns.Status.Phase) :
    escapeFree (namespaceLine k ns) := by
  rw [namespaceLine_other k ns hn]
  exact escapeFree_plain_entry _ " (Phase: " _ (by decide) h1 h2

theorem escapeFree_nodeLine_other (k : K8sClient) (node : Node)
    (hn : ¬ node.Name = k.nodeName)
    (h1 : escapeFree node.Name) (h2 : escapeFree node.Status.NodeInfo.KubeletVersion) :
    escapeFree (nodeLine k node) := by
  rw [nodeLine_other k node hn]
  have := escapeFree_plain_entry node.Name " ("
    (node.Status.NodeInfo.KubeletVersion ++ ", " ++ nodeReady node) (by decide) h1
    (by
      simp only [escapeFree_append]
      exact ⟨⟨h2, by decide⟩, escapeFree_nodeReady node⟩)
  simpa only [String.append_assoc] using this

/-- For a pod whose name and phase hold no escape character, the marker text and
the yellow sequence both occur somewhere in its line exactly when the pod is the
caller. -/
theorem podLine_occurs_iff (k : K8sClient) (pod : Pod)
    (h1 : escapeFree pod.Name) (h2 : escapeFree pod.Status.Phase) :
    (occursIn "<- THIS IS ME!" (podLine k pod) ∧ occursIn ColorYellow (podLine k pod)) ↔
      pod.Name = k.podName ∧ pod.Namespace = k.podNamespace := by
  constructor
  · rintro ⟨-, hy⟩
    by_contra hn
    exact not_occursIn_yellow _ (escapeFree_podLine_other k pod hn h1 h2) hy
  · intro h
    have hm := (carriesMarker_podLine_iff k pod).mpr h
    exact ⟨occursIn_of_endsWithMarker _ _ hm.2, occursIn_yellow_of_startsYellow _ hm.1.1⟩

theorem namespaceLine_occurs_iff (k : K8sClient) (ns : Namespace)
    (h1 : escapeFree ns.Name) (h2 : escapeFree ns.Status.Phase) :
    (occursIn "<- MY NAMESPACE" (namespaceLine k ns) ∧ occursIn ColorYellow (namespaceLine k ns))
      ↔ ns.Name = k.podNamespace := by
  constructor
  · rintro ⟨-, hy⟩
    by_contra hn
    exact not_occursIn_yellow _ (escapeFree_namespaceLine_other k ns hn h1 h2) hy
  · intro h
    have hm := (carriesMarker_namespaceLine_iff k ns).mpr h
    exact ⟨occursIn_of_endsWithMarker _ _ hm.2, occursIn_yellow_of_startsYellow _ hm.1.1⟩

theorem nodeLine_occurs_iff (k : K8sClient) (node : Node)
    (h1 : escapeFree node.Name) (h2 : escapeFree node.Status.NodeInfo.KubeletVersion) :
    (occursIn "<- MY NODE" (nodeLine k node) ∧ occursIn ColorYellow (nodeLine k node))
      ↔ node.Name = k.nodeName := by
  constructor
  · rintro ⟨-, hy⟩
    by_contra hn
    exact not_occursIn_yellow _ (escapeFree_nodeLine_other k node hn h1 h2) hy
  · intro h
    have hm := (carriesMarker_nodeLine_iff k node).mpr h
    exact ⟨occursIn_of_endsWithMarker _ _ hm.2, occursIn_yellow_of_startsYellow _ hm.1.1⟩

/-! ## The claims -/

/-- C1: when the node query succeeds, `GetClusterInfo` prints for every node the
entry built with the word left by the readiness scan, and that word is `"Ready"`
if and only if some condition of the node has type `"Ready"` and status `"True"`;
otherwise, and in particular for an empty condition list, it is `"NotReady"`. -/
theorem getClusterInfo_readiness_word (k : K8sClient) (nodes : List Node) (t : Trace)
    (h : k.clientset.listNodes = .ok nodes) :
    (GetClusterInfo k t).2 = t ++ Event.request ApiCall.nodes ::
        Event.stdout ("Cluster has " ++ toString nodes.length ++ " nodes:\n") ::
        nodes.map (fun node => Event.stdout (nodeEntry k node (nodeReady node)))
    ∧ ∀ node ∈ nodes,
        (nodeReady node = "Ready" ↔
          ∃ c ∈ node.Status.Conditions, c.condType = "Ready" ∧ c.Status = "True")
        ∧ ((¬ ∃ c ∈ node.Status.Conditions, c.condType = "Ready" ∧ c.Status = "True") →
          nodeReady node = "NotReady")
        ∧ (node.Status.Conditions = [] → nodeReady node = "NotReady") := by
  refine ⟨?_, ?_⟩
  · rw [GetClusterInfo_ok k nodes t h]
    rfl
  · intro node _
    refine ⟨readyScan_ready_iff _, readyScan_notReady _, ?_⟩
    intro he
    unfold nodeReady
    rw [he]
    rfl

/-- The readiness words of a ready node and of a node whose `Ready` condition is `False`. -/
theorem getClusterInfo_readiness_word_witness :
    exampleClient.clientset.listNodes = .ok [exampleNode, exampleNodeDown]
    ∧ (GetClusterInfo exampleClient []).2 = [] ++ Event.request ApiCall.nodes ::
        Event.stdout ("Cluster has " ++ toString [exampleNode, exampleNodeDown].length
          ++ " nodes:\n") ::
        [exampleNode, exampleNodeDown].map
          (fun node => Event.stdout (nodeEntry exampleClient node (nodeReady node)))
    ∧ nodeReady exampleNode = "Ready" ∧ nodeReady exampleNodeDown = "NotReady" :=
  ⟨rfl, (getClusterInfo_readiness_word exampleClient [exampleNode, exampleNodeDown] [] rfl).1,
    by decide, by decide⟩

/-- C7: the namespace that `main` passes to `ListPods` is the value of
`TARGET_NAMESPACE` when that value is not empty, it is `"default"` when the
variable is unset or empty, and it is never the empty string; once the client
is created, the requests of `main` are, cycle after cycle, the three list
requests, the pod request always with that namespace. -/
theorem targetNamespace_default (env : String → Option String) :
    (∀ v, env "TARGET_NAMESPACE" = some v → v ≠ "" → targetNamespace env = v)
    ∧ (env "TARGET_NAMESPACE" = none → targetNamespace env = "default")
    ∧ (env "TARGET_NAMESPACE" = some "" → targetNamespace env = "default")
    ∧ targetNamespace env ≠ ""
    ∧ ∀ (inCluster : Except GoError RestConfig) (newForConfig : RestConfig → Except GoError Clientset)
        (client : K8sClient) (answers : List Clientset),
        NewK8sClient ⟨env, inCluster, newForConfig⟩ = .ok client →
        requestsOf (main ⟨env, inCluster, newForConfig⟩ answers) =
          (List.replicate answers.length
            [ApiCall.nodes, ApiCall.namespaces, ApiCall.pods (targetNamespace env)]).flatten := by
  refine ⟨?_, ?_, ?_, ?_, ?_⟩
  · intro v hv hne
    simp [targetNamespace, Getenv, hv, hne]
  · intro hv
    simp [targetNamespace, Getenv, hv]
  · intro hv
    simp [targetNamespace, Getenv, hv]
  · unfold targetNamespace
    by_cases h : Getenv env "TARGET_NAMESPACE" = ""
    · simp only [h, if_true]
      decide
    · simp only [h, if_false]
      exact h
  · intro inCluster newForConfig client answers hc
    unfold main
    simp only [hc, requestsOf_mainLoop]
    simp [requestsOf, logPrintf]

/-- The namespace `staging` taken from the environment reaches both pod requests of two cycles. -/
theorem targetNamespace_default_witness :
    targetNamespace exampleEnv = "staging"
    ∧ requestsOf (main ⟨exampleEnv, .ok ⟨"10.0.0.1"⟩, fun _ => .ok exampleClientset⟩
        [exampleClientset, exampleClientset]) =
      (List.replicate [exampleClientset, exampleClientset].length
        [ApiCall.nodes, ApiCall.namespaces, ApiCall.pods (targetNamespace exampleEnv)]).flatten :=
  ⟨(targetNamespace_default exampleEnv).1 "staging" (by decide) (by decide),
    (targetNamespace_default exampleEnv).2.2.2.2 (.ok ⟨"10.0.0.1"⟩) (fun _ => .ok exampleClientset)
      ⟨exampleClientset, "", "", ""⟩ [exampleClientset, exampleClientset] rfl⟩

/-- Against an order dependence of the readiness scan: no two condition lists
that are permutations of each other get different readiness words. -/
theorem readiness_no_order_dependence :
    ¬ ∃ l₁ l₂ : List NodeCondition, l₁.Perm l₂ ∧
      readyScan l₁ "NotReady" ≠ readyScan l₂ "NotReady" := by
  rintro ⟨l₁, l₂, hp, hne⟩
  exact hne (readyScan_perm hp "NotReady")

/-- C9 (amended): the scan is left at the first condition of type `"Ready"` with
status `"True"` (the conditions after it are not inspected and the word is
`"Ready"`), and the word does not depend on the order of the conditions: two
condition lists that are permutations of each other get the same word. -/
theorem readiness_scan_first_match_and_order (pre rest l₁ l₂ : List NodeCondition)
    (c : NodeCondition)
    (hpre : ∀ d ∈ pre, ¬ (d.condType = "Ready" ∧ d.Status = "True"))
    (hc : c.condType = "Ready" ∧ c.Status = "True")
    (hperm : l₁.Perm l₂) :
    readyScanVisited (pre ++ c :: rest) = pre ++ [c]
    ∧ readyScan (pre ++ c :: rest) "NotReady" = "Ready"
    ∧ readyScan l₁ "NotReady" = readyScan l₂ "NotReady" := by
  refine ⟨readyScanVisited_first_match pre rest c hpre hc, ?_, readyScan_perm hperm _⟩
  exact (readyScan_ready_iff _).mpr ⟨c, by simp, hc⟩

/-- A scan that meets `Ready=False`, then `Ready=True`, and two orders of a conflicting pair. -/
theorem readiness_scan_first_match_and_order_witness :
    readyScanVisited ([⟨"Ready", "False"⟩] ++ ⟨"Ready", "True"⟩ :: [⟨"Ready", "Unknown"⟩])
      = [⟨"Ready", "False"⟩] ++ [⟨"Ready", "True"⟩]
    ∧ readyScan ([⟨"Ready", "False"⟩] ++ ⟨"Ready", "True"⟩ :: [⟨"Ready", "Unknown"⟩]) "NotReady"
      = "Ready"
    ∧ readyScan [⟨"Ready", "False"⟩, ⟨"Ready", "True"⟩] "NotReady"
      = readyScan [⟨"Ready", "True"⟩, ⟨"Ready", "False"⟩] "NotReady" :=
  readiness_scan_first_match_and_order [⟨"Ready", "False"⟩] [⟨"Ready", "Unknown"⟩]
    [⟨"Ready", "False"⟩, ⟨"Ready", "True"⟩] [⟨"Ready", "True"⟩, ⟨"Ready", "False"⟩]
    ⟨"Ready", "True"⟩ (by decide) (by decide) (List.Perm.swap _ _ _)

/-- C6: in one pass through the loop body of `main`, whatever the outcome of
the three queries, `GetClusterInfo`, `ListNamespaces` and `ListPods` run once
each, in this order, separated by a blank line; an error they return only adds a
log record; and what `ListNamespaces` and `ListPods` return and print is the same
for any client with the same identity and the same answer to their own query,
whatever the answers to the other queries.  Over any number of cycles the
requests are the same three, cycle after cycle. -/
theorem cycle_runs_all_three (client : K8sClient) (ns : String) (t : Trace) :
    cycle client ns t = t ++ ([Event.log "=== Kubernetes API Information ==="]
      ++ (GetClusterInfo client []).2
      ++ errorLog "Error getting cluster info: " (GetClusterInfo client []).1
      ++ [Event.stdout "\n"]
      ++ (ListNamespaces client []).2
      ++ errorLog "Error listing namespaces: " (ListNamespaces client []).1
      ++ [Event.stdout "\n"]
      ++ (ListPods client ns []).2
      ++ errorLog "Error listing pods: " (ListPods client ns []).1
      ++ [Event.log "=== End of Information ===",
          Event.log "Waiting 30 seconds before next update...", Event.sleep 30])
    ∧ requestsOf (cycle client ns t)
        = requestsOf t ++ [ApiCall.nodes, ApiCall.namespaces, ApiCall.pods ns]
    ∧ stdoutOf (cycle client ns t)
        = stdoutOf t ++ (stdoutOf (GetClusterInfo client []).2 ++ "\n" ::
            stdoutOf (ListNamespaces client []).2 ++ "\n" :: stdoutOf (ListPods client ns []).2)
    ∧ logOf (cycle client ns t)
        = logOf t ++ ("=== Kubernetes API Information ===" ::
            logOf (errorLog "Error getting cluster info: " (GetClusterInfo client []).1)
            ++ logOf (errorLog "Error listing namespaces: " (ListNamespaces client []).1)
            ++ logOf (errorLog "Error listing pods: " (ListPods client ns []).1)
            ++ ["=== End of Information ===", "Waiting 30 seconds before next update..."])
    ∧ (∀ other : K8sClient, other.podNamespace = client.podNamespace →
        other.clientset.listNamespaces = client.clientset.listNamespaces →
        ListNamespaces other [] = ListNamespaces client [])
    ∧ (∀ other : K8sClient, other.podName = client.podName →
        other.podNamespace = client.podNamespace →
        other.clientset.listPods ns = client.clientset.listPods ns →
        ListPods other ns [] = ListPods client ns [])
    ∧ (∀ answers : List Clientset,
        requestsOf (mainLoop client ns answers t) = requestsOf t ++
          (List.replicate answers.length
            [ApiCall.nodes, ApiCall.namespaces, ApiCall.pods ns]).flatten) := by
  refine ⟨cycle_eq client ns t, requestsOf_cycle client ns t, ?_, ?_, ?_, ?_,
    fun answers => requestsOf_mainLoop client ns answers t⟩
  · rw [cycle_eq]
    simp only [stdoutOf_append, stdoutOf_errorLog]
    simp [stdoutOf]
  · rw [cycle_eq]
    simp only [logOf_append, logOf_GetClusterInfo, logOf_ListNamespaces, logOf_ListPods]
    simp [logOf]
  · intro other h1 h2
    simp only [ListNamespaces, h2, namespaceLine, h1]
  · intro other h1 h2 h3
    simp only [ListPods, h3, podLine, h1, h2]

/-- C2: when the pod query succeeds, `ListPods` prints one line per pod, and the
line of a pod carries the marker `<- THIS IS ME!` inside the yellow highlight if
and only if the name of the pod is the pod name of the identity and its
namespace is the pod namespace of the identity; every other pod gets the plain
line, as does pod `p1` of `default` for the identity `p1` of `kube-system`.
When the name and the phase of the pod hold no escape character, the same holds
for the marker text and the yellow sequence occurring anywhere in the line. -/
theorem listPods_self_marker_iff (k : K8sClient) (ns : String) (pods : List Pod) (t : Trace)
    (h : k.clientset.listPods ns = .ok pods) :
    stdoutOf (ListPods k ns t).2 = stdoutOf t ++
        ("Found " ++ toString pods.length ++ " pods in namespace '" ++ ns ++ "':\n") ::
        pods.map (podLine k)
    ∧ (∀ pod : Pod,
        (carriesMarker "<- THIS IS ME!" (podLine k pod) ↔
          pod.Name = k.podName ∧ pod.Namespace = k.podNamespace)
        ∧ (¬ (pod.Name = k.podName ∧ pod.Namespace = k.podNamespace) →
          podLine k pod = "- " ++ pod.Name ++ " (Phase: " ++ pod.Status.Phase ++ ")\n"
          ∧ ¬ highlighted (podLine k pod))
        ∧ (escapeFree pod.Name → escapeFree pod.Status.Phase →
          ((occursIn "<- THIS IS ME!" (podLine k pod) ∧ occursIn ColorYellow (podLine k pod)) ↔
            pod.Name = k.podName ∧ pod.Namespace = k.podNamespace)))
    ∧ (∀ (nodesAnswer : Except GoError (List Node))
        (namespacesAnswer : Except GoError (List Namespace)) (nodeName : String),
        stdoutOf (ListPods ⟨⟨nodesAnswer, namespacesAnswer,
            fun _ => .ok [⟨"p1", "default", ⟨"Running"⟩⟩]⟩, "p1", "kube-system", nodeName⟩
            "default" []).2
          = ["Found 1 pods in namespace 'default':\n", "- p1 (Phase: Running)\n"]) := by
  refine ⟨?_, ?_, ?_⟩
  · exact stdoutOf_ListPods_ok k ns pods t h
  · intro pod
    refine ⟨carriesMarker_podLine_iff k pod, fun hn => ⟨podLine_other k pod hn, ?_⟩,
      podLine_occurs_iff k pod⟩
    rw [podLine_other k pod hn]
    simp only [String.append_assoc]
    exact plain_not_highlighted _
  · intro nodesAnswer namespacesAnswer nodeName
    rw [ListPods_ok _ "default" [⟨"p1", "default", ⟨"Running"⟩⟩] [] rfl]
    simp [stdoutOf, podLine]
    decide

/-- Pod `p1` is marked in `kube-system` and not marked in `default`. -/
theorem listPods_self_marker_iff_witness :
    exampleClient.clientset.listPods "kube-system" = .ok (examplePods "kube-system")
    ∧ stdoutOf (ListPods exampleClient "kube-system" []).2 = stdoutOf [] ++
        ("Found " ++ toString (examplePods "kube-system").length ++ " pods in namespace '"
          ++ "kube-system" ++ "':\n") :: (examplePods "kube-system").map (podLine exampleClient)
    ∧ carriesMarker "<- THIS IS ME!" (podLine exampleClient ⟨"p1", "kube-system", ⟨"Running"⟩⟩)
    ∧ ¬ carriesMarker "<- THIS IS ME!" (podLine exampleClient ⟨"p1", "default", ⟨"Running"⟩⟩) :=
  ⟨rfl,
    (listPods_self_marker_iff exampleClient "kube-system" (examplePods "kube-system") [] rfl).1,
    ((listPods_self_marker_iff exampleClient "kube-system" (examplePods "kube-system") []
      rfl).2.1 ⟨"p1", "kube-system", ⟨"Running"⟩⟩).1.mpr ⟨rfl, rfl⟩,
    fun hm => absurd
      (((listPods_self_marker_iff exampleClient "kube-system" (examplePods "kube-system") []
        rfl).2.1 ⟨"p1", "default", ⟨"Running"⟩⟩).1.mp hm).2 (by decide)⟩

/-- C3: when the node query succeeds, `GetClusterInfo` prints one line per node,
and the line of a node carries the marker `<- MY NODE` inside the yellow
highlight if and only if the name of the node is, character for character, the
node name of the identity; the conditions and the kubelet version of the node do
not change that, and a name that differs only in case gets no marker.  When the
name and the version of the node hold no escape character, the same holds for
the marker text and the yellow sequence occurring anywhere in the line. -/
theorem getClusterInfo_self_marker_iff (k : K8sClient) (nodes : List Node) (t : Trace)
    (h : k.clientset.listNodes = .ok nodes) :
    stdoutOf (GetClusterInfo k t).2 = stdoutOf t ++
        ("Cluster has " ++ toString nodes.length ++ " nodes:\n") :: nodes.map (nodeLine k)
    ∧ (∀ node : Node,
        (carriesMarker "<- MY NODE" (nodeLine k node) ↔ node.Name = k.nodeName)
        ∧ (¬ node.Name = k.nodeName → ¬ highlighted (nodeLine k node))
        ∧ (escapeFree node.Name → escapeFree node.Status.NodeInfo.KubeletVersion →
          ((occursIn "<- MY NODE" (nodeLine k node) ∧ occursIn ColorYellow (nodeLine k node)) ↔
            node.Name = k.nodeName))
        ∧ ∀ (conditions : List NodeCondition) (info : NodeSystemInfo),
            carriesMarker "<- MY NODE" (nodeLine k ⟨node.Name, ⟨conditions, info⟩⟩) ↔
              carriesMarker "<- MY NODE" (nodeLine k node))
    ∧ (∀ (clientset : Clientset) (podName podNamespace : String) (status : NodeStatus),
        ¬ carriesMarker "<- MY NODE"
          (nodeLine ⟨clientset, podName, podNamespace, "worker-1"⟩ ⟨"Worker-1", status⟩)) := by
  refine ⟨?_, ?_, ?_⟩
  · exact stdoutOf_GetClusterInfo_ok k nodes t h
  · intro node
    refine ⟨carriesMarker_nodeLine_iff k node, fun hn => ?_, nodeLine_occurs_iff k node,
      fun conditions info => ?_⟩
    · rw [nodeLine_other k node hn]
      simp only [String.append_assoc]
      exact plain_not_highlighted _
    · rw [carriesMarker_nodeLine_iff, carriesMarker_nodeLine_iff]
  · intro clientset podName podNamespace status hm
    have hne : ("Worker-1" : String) ≠ "worker-1" := by decide
    exact hne ((carriesMarker_nodeLine_iff _ _).mp hm)

/-- Node `n1` is marked and node `n2` is not. -/
theorem getClusterInfo_self_marker_iff_witness :
    exampleClient.clientset.listNodes = .ok [exampleNode, exampleNodeDown]
    ∧ stdoutOf (GetClusterInfo exampleClient []).2 = stdoutOf [] ++
        ("Cluster has " ++ toString [exampleNode, exampleNodeDown].length ++ " nodes:\n") ::
        [exampleNode, exampleNodeDown].map (nodeLine exampleClient)
    ∧ carriesMarker "<- MY NODE" (nodeLine exampleClient exampleNode)
    ∧ ¬ carriesMarker "<- MY NODE" (nodeLine exampleClient exampleNodeDown) :=
  ⟨rfl,
    (getClusterInfo_self_marker_iff exampleClient [exampleNode, exampleNodeDown] [] rfl).1,
    ((getClusterInfo_self_marker_iff exampleClient [exampleNode, exampleNodeDown] []
      rfl).2.1 exampleNode).1.mpr rfl,
    fun hm => absurd
      (((getClusterInfo_self_marker_iff exampleClient [exampleNode, exampleNodeDown] []
        rfl).2.1 exampleNodeDown).1.mp hm) (by decide)⟩

/-- C4: when the namespace query succeeds, `ListNamespaces` prints one line per
namespace, and the line of a namespace carries the marker `<- MY NAMESPACE`
inside the yellow highlight if and only if the name of the namespace is the pod
namespace of the identity; a client with another pod name and another node name
prints the same line.  When the name and the phase of the namespace hold no
escape character, the same holds for the marker text and the yellow sequence
occurring anywhere in the line. -/
theorem listNamespaces_self_marker_iff (k : K8sClient) (namespaces : List Namespace)
    (t : Trace) (h : k.clientset.listNamespaces = .ok namespaces) :
    stdoutOf (ListNamespaces k t).2 = stdoutOf t ++
        ("Found " ++ toString namespaces.length ++ " namespaces:\n") ::
        namespaces.map (namespaceLine k)
    ∧ (∀ ns : Namespace,
        (carriesMarker "<- MY NAMESPACE" (namespaceLine k ns) ↔ ns.Name = k.podNamespace)
        ∧ (¬ ns.Name = k.podNamespace → ¬ highlighted (namespaceLine k ns))
        ∧ (escapeFree ns.Name → escapeFree ns.Status.Phase →
          ((occursIn "<- MY NAMESPACE" (namespaceLine k ns)
              ∧ occursIn ColorYellow (namespaceLine k ns)) ↔ ns.Name = k.podNamespace))
        ∧ ∀ (clientset : Clientset) (podName nodeName : String),
            namespaceLine ⟨clientset, podName, k.podNamespace, nodeName⟩ ns
              = namespaceLine k ns) := by
  refine ⟨?_, ?_⟩
  · exact stdoutOf_ListNamespaces_ok k namespaces t h
  · intro ns
    refine ⟨carriesMarker_namespaceLine_iff k ns, fun hn => ?_, namespaceLine_occurs_iff k ns,
      fun _ _ _ => rfl⟩
    rw [namespaceLine_other k ns hn]
    simp only [String.append_assoc]
    exact plain_not_highlighted _

/-- Namespace `kube-system` is marked and namespace `default` is not. -/
theorem listNamespaces_self_marker_iff_witness :
    exampleClient.clientset.listNamespaces = .ok exampleNamespaces
    ∧ stdoutOf (ListNamespaces exampleClient []).2 = stdoutOf [] ++
        ("Found " ++ toString exampleNamespaces.length ++ " namespaces:\n") ::
        exampleNamespaces.map (namespaceLine exampleClient)
    ∧ carriesMarker "<- MY NAMESPACE" (namespaceLine exampleClient ⟨"kube-system", ⟨"Active"⟩⟩)
    ∧ ¬ carriesMarker "<- MY NAMESPACE" (namespaceLine exampleClient ⟨"default", ⟨"Active"⟩⟩) :=
  ⟨rfl,
    (listNamespaces_self_marker_iff exampleClient exampleNamespaces [] rfl).1,
    ((listNamespaces_self_marker_iff exampleClient exampleNamespaces [] rfl).2
      ⟨"kube-system", ⟨"Active"⟩⟩).1.mpr rfl,
    fun hm => absurd
      (((listNamespaces_self_marker_iff exampleClient exampleNamespaces [] rfl).2
        ⟨"default", ⟨"Active"⟩⟩).1.mp hm) (by decide)⟩

/-- C5: if the pod name, the pod namespace and the node name of the identity are
all empty and no fetched node, namespace or pod has an empty name, then no line
printed by `GetClusterInfo`, `ListNamespaces` and `ListPods` opens with the
yellow sequence or closes with a marker or the reset sequence: every line is a
header or a plain entry.  When, moreover, the texts taken from the cluster and
the target namespace hold no escape character, no printed line holds one, so
neither colour sequence occurs anywhere in it. -/
theorem no_self_marker_without_identity (k : K8sClient) (ns : String)
    (hp : k.podName = "") (hpn : k.podNamespace = "") (hn : k.nodeName = "")
    (hnodes : ∀ nodes, k.clientset.listNodes = .ok nodes → ∀ node ∈ nodes, node.Name ≠ "")
    (hnss : ∀ nss, k.clientset.listNamespaces = .ok nss → ∀ x ∈ nss, x.Name ≠ "")
    (hpods : ∀ pods, k.clientset.listPods ns = .ok pods → ∀ pod ∈ pods, pod.Name ≠ "") :
    (∀ line ∈ stdoutOf (GetClusterInfo k []).2 ++ stdoutOf (ListNamespaces k []).2
        ++ stdoutOf (ListPods k ns []).2,
      ¬ startsYellow line ∧ ∀ marker, ¬ endsWithMarker marker line)
    ∧ (escapeFree ns →
      (∀ nodes, k.clientset.listNodes = .ok nodes → ∀ node ∈ nodes,
        escapeFree node.Name ∧ escapeFree node.Status.NodeInfo.KubeletVersion) →
      (∀ nss, k.clientset.listNamespaces = .ok nss → ∀ x ∈ nss,
        escapeFree x.Name ∧ escapeFree x.Status.Phase) →
      (∀ pods, k.clientset.listPods ns = .ok pods → ∀ pod ∈ pods,
        escapeFree pod.Name ∧ escapeFree pod.Status.Phase) →
      ∀ line ∈ stdoutOf (GetClusterInfo k []).2 ++ stdoutOf (ListNamespaces k []).2
          ++ stdoutOf (ListPods k ns []).2,
        escapeFree line ∧ ¬ occursIn ColorYellow line ∧ ¬ occursIn ColorReset line) := by
  have hnode : ∀ nodes, k.clientset.listNodes = .ok nodes → ∀ node ∈ nodes,
      ¬ node.Name = k.nodeName := fun nodes h node hmem => by
    rw [hn]
    exact hnodes nodes h node hmem
  have hnsp : ∀ nss, k.clientset.listNamespaces = .ok nss → ∀ x ∈ nss,
      ¬ x.Name = k.podNamespace := fun nss h x hmem => by
    rw [hpn]
    exact hnss nss h x hmem
  have hpod : ∀ pods, k.clientset.listPods ns = .ok pods → ∀ pod ∈ pods,
      ¬ (pod.Name = k.podName ∧ pod.Namespace = k.podNamespace) := fun pods h pod hmem => by
    rw [hp]
    exact fun hh => hpods pods h pod hmem hh.1
  refine ⟨?_, ?_⟩
  swap
  · intro hns enodes enss epods line hline
    suffices hfree : escapeFree line from
      ⟨hfree, not_occursIn_yellow line hfree, not_occursIn_reset line hfree⟩
    rcases List.mem_append.mp hline with hline | hline
    · rcases List.mem_append.mp hline with hline | hline
      · cases h : k.clientset.listNodes with
        | error err =>
          rw [stdoutOf_GetClusterInfo_error k err [] h] at hline
          exact absurd hline (List.not_mem_nil _)
        | ok nodes =>
          rw [stdoutOf_GetClusterInfo_ok k nodes [] h] at hline
          rcases List.mem_cons.mp hline with rfl | hline
          · simp only [escapeFree_append]
            exact ⟨⟨by decide, escapeFree_toString _⟩, by decide⟩
          · obtain ⟨node, hmem, rfl⟩ := List.mem_map.mp hline
            exact escapeFree_nodeLine_other k node (hnode nodes h node hmem)
              (enodes nodes h node hmem).1 (enodes nodes h node hmem).2
      · cases h : k.clientset.listNamespaces with
        | error err =>
          rw [stdoutOf_ListNamespaces_error k err [] h] at hline
          exact absurd hline (List.not_mem_nil _)
        | ok nss =>
          rw [stdoutOf_ListNamespaces_ok k nss [] h] at hline
          rcases List.mem_cons.mp hline with rfl | hline
          · simp only [escapeFree_append]
            exact ⟨⟨by decide, escapeFree_toString _⟩, by decide⟩
          · obtain ⟨x, hmem, rfl⟩ := List.mem_map.mp hline
            exact escapeFree_namespaceLine_other k x (hnsp nss h x hmem)
              (enss nss h x hmem).1 (enss nss h x hmem).2
    · cases h : k.clientset.listPods ns with
      | error err =>
        rw [stdoutOf_ListPods_error k ns err [] h] at hline
        exact absurd hline (List.not_mem_nil _)
      | ok pods =>
        rw [stdoutOf_ListPods_ok k ns pods [] h] at hline
        rcases List.mem_cons.mp hline with rfl | hline
        · simp only [escapeFree_append]
          exact ⟨⟨⟨⟨by decide, escapeFree_toString _⟩, by decide⟩, hns⟩, by decide⟩
        · obtain ⟨pod, hmem, rfl⟩ := List.mem_map.mp hline
          exact escapeFree_podLine_other k pod (hpod pods h pod hmem)
            (epods pods h pod hmem).1 (epods pods h pod hmem).2
  intro line hline
  rcases List.mem_append.mp hline with hline | hline
  · rcases List.mem_append.mp hline with hline | hline
    · cases h : k.clientset.listNodes with
      | error err =>
        rw [stdoutOf_GetClusterInfo_error k err [] h] at hline
        exact absurd hline (List.not_mem_nil _)
      | ok nodes =>
        rw [stdoutOf_GetClusterInfo_ok k nodes [] h] at hline
        rcases List.mem_cons.mp hline with rfl | hline
        · exact nodes_header_unmarked _
        · obtain ⟨node, hmem, rfl⟩ := List.mem_map.mp hline
          have hne := hnode nodes h node hmem
          rw [nodeLine_other k node hne]
          have := plain_entry_unmarked (node.Name ++ " (" ++ node.Status.NodeInfo.KubeletVersion
            ++ ", " ++ nodeReady node)
          simpa only [String.append_assoc] using this
    · cases h : k.clientset.listNamespaces with
      | error err =>
        rw [stdoutOf_ListNamespaces_error k err [] h] at hline
        exact absurd hline (List.not_mem_nil _)
      | ok nss =>
        rw [stdoutOf_ListNamespaces_ok k nss [] h] at hline
        rcases List.mem_cons.mp hline with rfl | hline
        · exact namespaces_header_unmarked _
        · obtain ⟨x, hmem, rfl⟩ := List.mem_map.mp hline
          have hne := hnsp nss h x hmem
          rw [namespaceLine_other k x hne]
          have := plain_entry_unmarked (x.Name ++ " (Phase: " ++ x.Status.Phase)
          simpa only [String.append_assoc] using this
  · cases h : k.clientset.listPods ns with
    | error err =>
      rw [stdoutOf_ListPods_error k ns err [] h] at hline
      exact absurd hline (List.not_mem_nil _)
    | ok pods =>
      rw [stdoutOf_ListPods_ok k ns pods [] h] at hline
      rcases List.mem_cons.mp hline with rfl | hline
      · exact pods_header_unmarked _ _
      · obtain ⟨pod, hmem, rfl⟩ := List.mem_map.mp hline
        have hne := hpod pods h pod hmem
        rw [podLine_other k pod hne]
        have := plain_entry_unmarked (pod.Name ++ " (Phase: " ++ pod.Status.Phase)
        simpa only [String.append_assoc] using this

/-- With an empty identity the example cluster is printed without any highlight. -/
theorem no_self_marker_without_identity_witness :
    "- n1 (v1.28, Ready)\n" ∈ stdoutOf (GetClusterInfo anonymousClient []).2
        ++ stdoutOf (ListNamespaces anonymousClient []).2
        ++ stdoutOf (ListPods anonymousClient "default" []).2
    ∧ ∀ line ∈ stdoutOf (GetClusterInfo anonymousClient []).2
        ++ stdoutOf (ListNamespaces anonymousClient []).2
        ++ stdoutOf (ListPods anonymousClient "default" []).2,
      ¬ startsYellow line ∧ ∀ marker, ¬ endsWithMarker marker line :=
  ⟨by decide,
    (no_self_marker_without_identity anonymousClient "default" rfl rfl rfl
      (fun nodes h node hm => by
        cases h
        revert node
        decide)
      (fun nss h x hm => by
        cases h
        revert x
        decide)
      (fun pods h pod hm => by
        cases h
        revert pod
        decide)).1⟩

/-- C8: for a node whose name is the node name of the identity, the line that
`GetClusterInfo` prints is the yellow sequence, the entry with the name, the
kubelet version and the readiness word of the node, the marker `<- MY NODE`, the
reset sequence and the newline; so the line contains these four texts, opens
with the yellow sequence and closes with the reset sequence before the
newline.  For the single ready node `n1` with kubelet `v1.28` and the identity
node `n1` the line is the highlighted `- n1 (v1.28, Ready) <- MY NODE`. -/
theorem own_node_line (k : K8sClient) (node : Node) (h : node.Name = k.nodeName) :
    nodeLine k node = ColorYellow ++ "- " ++ node.Name ++ " ("
        ++ node.Status.NodeInfo.KubeletVersion ++ ", " ++ nodeReady node ++ ") <- MY NODE"
        ++ ColorReset ++ "\n"
    ∧ occursIn node.Name (nodeLine k node)
    ∧ occursIn node.Status.NodeInfo.KubeletVersion (nodeLine k node)
    ∧ occursIn (nodeReady node) (nodeLine k node)
    ∧ occursIn "<- MY NODE" (nodeLine k node)
    ∧ startsYellow (nodeLine k node)
    ∧ endsWithMarker "" (nodeLine k node)
    ∧ (∀ (nodes : List Node) (t : Trace), k.clientset.listNodes = .ok nodes → node ∈ nodes →
        nodeLine k node ∈ stdoutOf (GetClusterInfo k t).2)
    ∧ (∀ (namespacesAnswer : Except GoError (List Namespace))
        (podsAnswer : String → Except GoError (List Pod)) (podName podNamespace : String),
        stdoutOf (GetClusterInfo
            ⟨⟨.ok [⟨"n1", ⟨[⟨"Ready", "True"⟩], ⟨"v1.28"⟩⟩⟩], namespacesAnswer, podsAnswer⟩,
              podName, podNamespace, "n1"⟩ []).2
          = ["Cluster has 1 nodes:\n", "\x1b[33m- n1 (v1.28, Ready) <- MY NODE\x1b[0m\n"]) := by
  have hm := (carriesMarker_nodeLine_iff k node).mpr h
  refine ⟨nodeLine_self k node h, ?_, ?_, ?_, ?_, hm.1.1, hm.1.2, ?_, ?_⟩
  · rw [nodeLine_self k node h]
    refine ⟨(ColorYellow ++ "- ").data, (" (" ++ node.Status.NodeInfo.KubeletVersion ++ ", "
      ++ nodeReady node ++ ") <- MY NODE" ++ ColorReset ++ "\n").data, ?_⟩
    simp only [String.data_append, List.append_assoc]
  · rw [nodeLine_self k node h]
    refine ⟨(ColorYellow ++ "- " ++ node.Name ++ " (").data, (", "
      ++ nodeReady node ++ ") <- MY NODE" ++ ColorReset ++ "\n").data, ?_⟩
    simp only [String.data_append, List.append_assoc]
  · rw [nodeLine_self k node h]
    refine ⟨(ColorYellow ++ "- " ++ node.Name ++ " (" ++ node.Status.NodeInfo.KubeletVersion
      ++ ", ").data, (") <- MY NODE" ++ ColorReset ++ "\n").data, ?_⟩
    simp only [String.data_append, List.append_assoc]
  · rw [nodeLine_self k node h]
    refine ⟨(ColorYellow ++ "- " ++ node.Name ++ " (" ++ node.Status.NodeInfo.KubeletVersion
      ++ ", " ++ nodeReady node ++ ") ").data, (ColorReset ++ "\n").data, ?_⟩
    simp only [String.data_append, List.append_assoc]
    rfl
  · intro nodes t hok hmem
    rw [stdoutOf_GetClusterInfo_ok k nodes t hok]
    exact List.mem_append_right _ (List.mem_cons_of_mem _ (List.mem_map_of_mem _ hmem))
  · intro namespacesAnswer podsAnswer podName podNamespace
    rw [stdoutOf_GetClusterInfo_ok _ [⟨"n1", ⟨[⟨"Ready", "True"⟩], ⟨"v1.28"⟩⟩⟩] [] rfl]
    simp [stdoutOf, nodeLine, nodeEntry, nodeReady, readyScan]
    decide

/-- The line of node `n1` for a client that runs on `n1`. -/
theorem own_node_line_witness :
    exampleNode.Name = exampleClient.nodeName
    ∧ nodeLine exampleClient exampleNode = "\x1b[33m- n1 (v1.28, Ready) <- MY NODE\x1b[0m\n"
    ∧ occursIn "v1.28" (nodeLine exampleClient exampleNode)
    ∧ occursIn "<- MY NODE" (nodeLine exampleClient exampleNode) :=
  ⟨rfl, (own_node_line exampleClient exampleNode rfl).1.trans (by decide),
    (own_node_line exampleClient exampleNode rfl).2.2.1,
    (own_node_line exampleClient exampleNode rfl).2.2.2.2.1⟩

/-- C10: when its list query fails, each of `GetClusterInfo`, `ListNamespaces`
and `ListPods` writes nothing to standard output and returns an error that wraps
the failure of the query; when the query succeeds it returns no error and writes
a header with the number of items and then one newline-terminated line per item,
in the order of the list. -/
theorem operations_fail_silently_or_print_all (k : K8sClient) (ns : String) (t : Trace) :
    (∀ err, k.clientset.listNodes = .error err →
      stdoutOf (GetClusterInfo k t).2 = stdoutOf t
      ∧ ∃ e, (GetClusterInfo k t).1 = some e ∧ e.Unwrap = some err
          ∧ e.Error = "failed to list nodes: " ++ err.Error)
    ∧ (∀ nodes, k.clientset.listNodes = .ok nodes →
      (GetClusterInfo k t).1 = none
      ∧ stdoutOf (GetClusterInfo k t).2 = stdoutOf t ++
          ("Cluster has " ++ toString nodes.length ++ " nodes:\n") :: nodes.map (nodeLine k))
    ∧ (∀ err, k.clientset.listNamespaces = .error err →
      stdoutOf (ListNamespaces k t).2 = stdoutOf t
      ∧ ∃ e, (ListNamespaces k t).1 = some e ∧ e.Unwrap = some err
          ∧ e.Error = "failed to list namespaces: " ++ err.Error)
    ∧ (∀ namespaces, k.clientset.listNamespaces = .ok namespaces →
      (ListNamespaces k t).1 = none
      ∧ stdoutOf (ListNamespaces k t).2 = stdoutOf t ++
          ("Found " ++ toString namespaces.length ++ " namespaces:\n") ::
          namespaces.map (namespaceLine k))
    ∧ (∀ err, k.clientset.listPods ns = .error err →
      stdoutOf (ListPods k ns t).2 = stdoutOf t
      ∧ ∃ e, (ListPods k ns t).1 = some e ∧ e.Unwrap = some err
          ∧ e.Error = "failed to list pods: " ++ err.Error)
    ∧ (∀ pods, k.clientset.listPods ns = .ok pods →
      (ListPods k ns t).1 = none
      ∧ stdoutOf (ListPods k ns t).2 = stdoutOf t ++
          ("Found " ++ toString pods.length ++ " pods in namespace '" ++ ns ++ "':\n") ::
          pods.map (podLine k))
    ∧ (∀ node, endsNewline (nodeLine k node))
    ∧ (∀ x, endsNewline (namespaceLine k x))
    ∧ (∀ pod, endsNewline (podLine k pod)) := by
  refine ⟨?_, ?_, ?_, ?_, ?_, ?_, endsNewline_nodeLine k, endsNewline_namespaceLine k,
    endsNewline_podLine k⟩
  · intro err h
    refine ⟨stdoutOf_GetClusterInfo_error k err t h,
      GoError.wrapped ("failed to list nodes: " ++ err.Error) err, ?_, rfl, rfl⟩
    rw [GetClusterInfo_error k err t h]
  · intro nodes h
    refine ⟨?_, stdoutOf_GetClusterInfo_ok k nodes t h⟩
    rw [GetClusterInfo_ok k nodes t h]
  · intro err h
    refine ⟨stdoutOf_ListNamespaces_error k err t h,
      GoError.wrapped ("failed to list namespaces: " ++ err.Error) err, ?_, rfl, rfl⟩
    rw [ListNamespaces_error k err t h]
  · intro namespaces h
    refine ⟨?_, stdoutOf_ListNamespaces_ok k namespaces t h⟩
    rw [ListNamespaces_ok k namespaces t h]
  · intro err h
    refine ⟨stdoutOf_ListPods_error k ns err t h,
      GoError.wrapped ("failed to list pods: " ++ err.Error) err, ?_, rfl, rfl⟩
    rw [ListPods_error k ns err t h]
  · intro pods h
    refine ⟨?_, stdoutOf_ListPods_ok k ns pods t h⟩
    rw [ListPods_ok k ns pods t h]

/-- A failing node query next to a pod query that answers. -/
theorem operations_fail_silently_or_print_all_witness :
    nodesDownClient.clientset.listNodes = .error (.api "connection refused")
    ∧ stdoutOf (GetClusterInfo nodesDownClient []).2 = stdoutOf []
    ∧ (∃ e, (GetClusterInfo nodesDownClient []).1 = some e
        ∧ e.Unwrap = some (.api "connection refused")
        ∧ e.Error = "failed to list nodes: " ++ (GoError.api "connection refused").Error)
    ∧ nodesDownClient.clientset.listPods "default" = .ok (examplePods "default")
    ∧ (ListPods nodesDownClient "default" []).1 = none
    ∧ stdoutOf (ListPods nodesDownClient "default" []).2 = stdoutOf [] ++
        ("Found " ++ toString (examplePods "default").length ++ " pods in namespace '"
          ++ "default" ++ "':\n") :: (examplePods "default").map (podLine nodesDownClient) :=
  ⟨rfl,
    ((operations_fail_silently_or_print_all nodesDownClient "default" []).1 _ rfl).1,
    ((operations_fail_silently_or_print_all nodesDownClient "default" []).1 _ rfl).2,
    rfl,
    ((operations_fail_silently_or_print_all nodesDownClient "default" []).2.2.2.2.2.1 _ rfl).1,
    ((operations_fail_silently_or_print_all nodesDownClient "default" []).2.2.2.2.2.1 _ rfl).2⟩

/-- A cycle in which the node query fails: the two later sections are printed in full. -/
theorem cycle_runs_all_three_witness :
    requestsOf (cycle nodesDownClient "default" [])
      = requestsOf [] ++ [ApiCall.nodes, ApiCall.namespaces, ApiCall.pods "default"]
    ∧ stdoutOf (cycle nodesDownClient "default" [])
      = ["\n", "Found 2 namespaces:\n", "- default (Phase: Active)\n",
          "\x1b[33m- kube-system (Phase: Active) <- MY NAMESPACE\x1b[0m\n", "\n",
          "Found 2 pods in namespace 'default':\n", "- p1 (Phase: Running)\n",
          "- p2 (Phase: Pending)\n"]
    ∧ ListNamespaces nodesDownClient [] = ListNamespaces exampleClient [] :=
  ⟨(cycle_runs_all_three nodesDownClient "default" []).2.1,
    (cycle_runs_all_three nodesDownClient "default" []).2.2.1.trans (by decide),
    (cycle_runs_all_three exampleClient "default" []).2.2.2.2.1 nodesDownClient rfl rfl⟩

end K8sApiClient
